import Mathlib

/-!
Shallow embedding of the client-side auth/session layer:
the session provider (`src/hooks/use-auth.tsx`), the route gate
(`src/unnamed/part_000`, `src/components/protected-route.tsx`) and the
projects resource hook (`src/hooks/use-projects.tsx`), together with the
companion provider variant lacking the `connectionError` flag (appended in
`src/lib/supabase.ts`).

Asynchronous code is modelled as an explicit step machine: every
suspension point of the source (the `Promise.race` of the session probe
against the timeout, the profile fetches, the auth-change events, the
unmount) is a message, and `step` runs the synchronous continuation the
source attaches to that resolution.  Remote calls are fallible inputs
(constructors for success, error result, thrown exception); all modelled
functions are total, which reflects that the source catches every
exception at the boundaries the spec describes.
-/

namespace Piss2

structure User where
  id : String
  email : String
deriving Repr, DecidableEq

/-- A session issued by the remote service; `user` is the associated
identity (`session.user` in the source is non-null on a present session). -/
structure Session where
  user : User
deriving Repr, DecidableEq

structure Profile where
  id : String
  email : String
  full_name : Option String
  avatar_url : Option String
  created_at : String
  updated_at : String
deriving Repr, DecidableEq

/-- The Session Store's state bundle `{user, profile, session, loading,
connectionError}` from `AuthProvider` in `src/hooks/use-auth.tsx`. -/
structure AuthState where
  user : Option User
  profile : Option Profile
  session : Option Session
  loading : Bool
  connectionError : Bool
deriving Repr, DecidableEq

/-- Initial React state: `useState(null)` ×3, `useState(true)` for
`loading`, `useState(false)` for `connectionError`. -/
def initialAuthState : AuthState :=
  { user := none, profile := none, session := none,
    loading := true, connectionError := false }

/-- `session?.user ?? null`. -/
def sessionUser (s : Option Session) : Option User :=
  match s with
  | some ss => some ss.user
  | none => none

/-- Result of the remote profile query
`from('profiles').select('*').eq('id', userId).single()`:
a row, a no-row error (code `PGRST116`), or any other failure
(error result or thrown exception). -/
inductive ProfileQueryResult where
  | ok (p : Profile)
  | notFound
  | failure (msg : String)
deriving Repr, DecidableEq

/-- `fetchProfile` from `src/hooks/use-auth.tsx`: returns the row on
success, and `null` both when no row exists (`PGRST116` is tolerated and
`data` is null) and on any other error or thrown exception (both caught,
logged, `return null`).  Totality of this function is the source's
"never throws" guarantee. -/
def fetchProfile : ProfileQueryResult → Option Profile
  | .ok p => some p
  | .notFound => none
  | .failure _ => none

/-- Where the bootstrap (`initializeAuth`) currently is:
awaiting the `Promise.race` of `getSession()` against the timeout,
awaiting the bootstrap `fetchProfile`, or finished. -/
inductive BootPhase where
  | racing
  | fetchingProfile
  | done
deriving Repr, DecidableEq

/-- Provider-level state: the React state bundle plus the effect-scoped
bookkeeping — the `mounted` liveness flag, the bootstrap phase (the
single-assignment nature of `Promise.race`: once one side settled, the
other side's later settlement reaches no handler), and whether the
auth-change handler is awaiting a `fetchProfile`. -/
structure ProviderState where
  auth : AuthState
  mounted : Bool
  phase : BootPhase
  handlerFetching : Bool
deriving Repr, DecidableEq

/-- State right after the effect started the bootstrap on a configured
client: `mounted = true`, the race pending. -/
def initProvider : ProviderState :=
  { auth := initialAuthState, mounted := true,
    phase := .racing, handlerFetching := false }

/-- Asynchronous resolutions delivered to the provider. -/
inductive Msg where
  | timeout
  | sessionResult (s : Option Session) (err : Bool)
  | profileResult (p : Option Profile)
  | authEvent (s : Option Session)
  | handlerProfileResult (p : Option Profile)
  | unmount
deriving Repr, DecidableEq

/-- One resolution step of the provider, from `src/hooks/use-auth.tsx`.

* `timeout`: the race's catch branch — `setConnectionError(true)` is
  unguarded, `setLoading(false)` is inside `if (mounted)`; a settled race
  ignores it.
* `sessionResult s err`: the race's success continuation —
  `setConnectionError(err)` unguarded, then inside `if (mounted)`:
  `setSession`, `setUser(session?.user ?? null)`; with a user it suspends
  on `fetchProfile`, otherwise `setLoading(false)` ends the bootstrap.
  The source guard is `session?.user && !connectionError`, but the
  `connectionError` read there is the binding captured by the empty-deps
  effect closure at first render — permanently `false` (`setConnectionError`
  never rebinds it) — so the conjunct is inert and the guard is the user's
  presence.
* `profileResult p`: resumption after the bootstrap `fetchProfile`:
  `if (mounted) setProfile(p)`, then `setLoading(false)` — the latter is
  inside the outer `if (mounted)` block entered before the await and is
  not re-checked.
* `authEvent s`: the `onAuthStateChange` callback; `if (!mounted) return`,
  then `setSession`/`setUser`; with a user it suspends on `fetchProfile`
  (the `!connectionError` conjunct of the source guard reads the same
  stale closure binding, permanently `false`, so the fetch happens
  whenever the event carries a user), otherwise `setProfile(null)` and
  `if (mounted) setLoading(false)`.
* `handlerProfileResult p`: resumption of the handler's fetch:
  `if (mounted) setProfile(p)` and `if (mounted) setLoading(false)`.
* `unmount`: the effect cleanup clears `mounted` (and unsubscribes; a
  later `authEvent` is a no-op through the `mounted` guard either way). -/
def step (st : ProviderState) (m : Msg) : ProviderState :=
  match m with
  | .timeout =>
    if st.phase = .racing then
      { st with
        phase := .done
        auth := { st.auth with
                  connectionError := true
                  loading := if st.mounted then false else st.auth.loading } }
    else st
  | .sessionResult s err =>
    if st.phase = .racing then
      let a1 := { st.auth with connectionError := err }
      if st.mounted then
        let a2 := { a1 with session := s, user := sessionUser s }
        if (sessionUser s).isSome then
          { st with phase := .fetchingProfile, auth := a2 }
        else
          { st with phase := .done, auth := { a2 with loading := false } }
      else { st with phase := .done, auth := a1 }
    else st
  | .profileResult p =>
    if st.phase = .fetchingProfile then
      let a1 := if st.mounted then { st.auth with profile := p } else st.auth
      { st with phase := .done, auth := { a1 with loading := false } }
    else st
  | .authEvent s =>
    if !st.mounted then st
    else
      let a1 := { st.auth with session := s, user := sessionUser s }
      if (sessionUser s).isSome then
        { st with auth := a1, handlerFetching := true }
      else
        { st with auth := { a1 with profile := none, loading := false } }
  | .handlerProfileResult p =>
    if st.handlerFetching then
      let a1 :=
        if st.mounted then { st.auth with profile := p, loading := false }
        else st.auth
      { st with handlerFetching := false, auth := a1 }
    else st
  | .unmount =>
    { st with mounted := false }

/-- Run a list of resolutions in order. -/
def run (st : ProviderState) (ms : List Msg) : ProviderState :=
  ms.foldl step st

/-- C1: if the fixed timeout settles the bootstrap race first, the store
is left in the timed-out state (`connectionError = true`,
`loading = false`, no session, user or profile), and the late resolution
of the in-flight `getSession()` — whatever session or error it carries —
changes nothing: the final state equals the timeout outcome. -/
theorem timeout_wins_race_ignores_late_session (s : Option Session) (err : Bool) :
    step (step initProvider .timeout) (.sessionResult s err)
      = step initProvider .timeout
    ∧ (step initProvider .timeout).auth.connectionError = true
    ∧ (step initProvider .timeout).auth.loading = false
    ∧ (step initProvider .timeout).auth.session = none
    ∧ (step initProvider .timeout).auth.user = none
    ∧ (step initProvider .timeout).auth.profile = none := by
  refine ⟨?_, rfl, rfl, rfl, rfl, rfl⟩
  rfl

/-- What `ProtectedRoute` (the connection-aware variant in
`src/unnamed/part_000`) renders. -/
inductive Render where
  | loadingScreen
  | connectionErrorScreen
  | children
  | authPage
deriving Repr, DecidableEq

/-- `ProtectedRoute` from `src/unnamed/part_000`: the guard chain over
`{loading, user, connectionError}` from the auth context and the local UI
flags `{showAuth, authDismissed}`, in source order, ending in the
`<>{children}</>` fallback. -/
def protectedRoute (loading : Bool) (user : Option User)
    (connectionError showAuth authDismissed : Bool) : Render :=
  if loading then .loadingScreen
  else if connectionError && !authDismissed && !showAuth then .connectionErrorScreen
  else if user.isSome then .children
  else if authDismissed && !showAuth then .children
  else if showAuth || !authDismissed then .authPage
  else .children

/-- Concrete fixtures used by witnesses and counterexamples. -/
def u1 : User := { id := "user-1", email := "user-1@example.com" }

def sess1 : Session := { user := u1 }

def prof1 : Profile :=
  { id := "user-1", email := "user-1@example.com", full_name := some "User One"
    avatar_url := none, created_at := "2024-01-01", updated_at := "2024-01-01" }

/-- C2 counterexample: the claim says no store field is mutated by an
async resolution arriving after unmount, but the timeout continuation's
`setConnectionError(true)` is outside the `if (mounted)` guard: unmount
during the race, then the timeout firing, flips `connectionError` from
`false` to `true`. -/
theorem unmount_then_timeout_still_mutates :
    (run initProvider [Msg.unmount]).mounted = false
    ∧ (run initProvider [Msg.unmount]).auth.connectionError = false
    ∧ (run initProvider [Msg.unmount, Msg.timeout]).auth.connectionError = true := by
  decide

/-- C2 amended: after unmount, no asynchronous resolution mutates `user`,
`profile` or `session`, and a delivered auth event is a complete no-op;
however `connectionError` (race continuations) and `loading` (the
bootstrap profile continuation) can still be written post-teardown. -/
theorem post_unmount_preserves_identity_state (st : ProviderState) (m : Msg)
    (h : st.mounted = false) :
    (step st m).auth.user = st.auth.user
    ∧ (step st m).auth.profile = st.auth.profile
    ∧ (step st m).auth.session = st.auth.session
    ∧ (∀ s, step st (.authEvent s) = st) := by
  refine ⟨?_, ?_, ?_, ?_⟩ <;>
    cases m <;> simp [step, h] <;> split <;> simp [h]

/-- C2 amended witness: a post-unmount bootstrap profile resolution at a
concrete state leaves the identity fields untouched. -/
theorem post_unmount_preserves_identity_state_witness :
    (step (run initProvider [Msg.unmount]) (Msg.profileResult (some prof1))).auth.user
      = (run initProvider [Msg.unmount]).auth.user :=
  (post_unmount_preserves_identity_state (run initProvider [Msg.unmount])
    (Msg.profileResult (some prof1)) rfl).1

/-- C3: the Access Gate's decision, in the listed order: loading wins;
else the connection-error choice screen when `connectionError` is set and
the prompt is neither dismissed nor requested; else a present user sees
the children; else dismissal without an explicit auth request shows the
children even signed out; else the authentication prompt. -/
theorem access_gate_decision (loading : Bool) (user : Option User)
    (connectionError showAuth authDismissed : Bool) :
    (loading = true →
      protectedRoute loading user connectionError showAuth authDismissed
        = .loadingScreen)
    ∧ (loading = false → connectionError = true → authDismissed = false →
        showAuth = false →
        protectedRoute loading user connectionError showAuth authDismissed
          = .connectionErrorScreen)
    ∧ (loading = false →
        ¬(connectionError = true ∧ authDismissed = false ∧ showAuth = false) →
        user.isSome = true →
        protectedRoute loading user connectionError showAuth authDismissed
          = .children)
    ∧ (loading = false → user = none → authDismissed = true → showAuth = false →
        protectedRoute loading user connectionError showAuth authDismissed
          = .children)
    ∧ (loading = false →
        ¬(connectionError = true ∧ authDismissed = false ∧ showAuth = false) →
        user = none → ¬(authDismissed = true ∧ showAuth = false) →
        protectedRoute loading user connectionError showAuth authDismissed
          = .authPage) := by
  cases loading <;> cases connectionError <;> cases showAuth <;>
    cases authDismissed <;> cases user <;>
      refine ⟨?_, ?_, ?_, ?_, ?_⟩ <;> intros <;> first | rfl | contradiction

/-- C3 witness: the loading scenario at a concrete input. -/
theorem access_gate_decision_witness :
    protectedRoute true none false false false = .loadingScreen :=
  (access_gate_decision true none false false false).1 rfl

/-- C4 counterexample: the claim says a failed profile fetch leaves
`profile` unchanged, but `fetchProfile` returns `null` on failure and the
handler stores it: after a bootstrap that loaded `prof1`, an auth event
whose profile re-fetch fails overwrites the profile with `none`. -/
theorem failed_profile_refetch_overwrites_profile :
    (run initProvider [Msg.sessionResult (some sess1) false,
        Msg.profileResult (fetchProfile (.ok prof1))]).auth.profile = some prof1
    ∧ (run initProvider [Msg.sessionResult (some sess1) false,
        Msg.profileResult (fetchProfile (.ok prof1)),
        Msg.authEvent (some sess1),
        Msg.handlerProfileResult (fetchProfile (.failure "network error"))]).auth.profile
      = none := by
  decide

/-- C4 amended: an auth event delivered while mounted sets `session` to
the event's session and derives `user` from it; with no user it clears
`profile` and ends with `loading = false`; with a user it fetches the
profile — regardless of the store's current `connectionError`: the
`!connectionError` conjunct of the source guard reads the effect
closure's captured binding, which stays `false` forever — and, on
resolution, stores the fetch's result, `none` on failure, overwriting
any previous profile, and ends with `loading = false` (totality of
`fetchProfile` and `step` is the never-throws guarantee). -/
theorem auth_event_handler_contract (st : ProviderState) (s : Option Session)
    (hm : st.mounted = true) :
    (step st (.authEvent s)).auth.session = s
    ∧ (step st (.authEvent s)).auth.user = sessionUser s
    ∧ (sessionUser s = none →
        (step st (.authEvent s)).auth.profile = none
        ∧ (step st (.authEvent s)).auth.loading = false)
    ∧ ((sessionUser s).isSome = true →
        (step st (.authEvent s)).handlerFetching = true
        ∧ ∀ (res : ProfileQueryResult),
            (step (step st (.authEvent s))
                (.handlerProfileResult (fetchProfile res))).auth.profile
              = fetchProfile res
            ∧ (step (step st (.authEvent s))
                (.handlerProfileResult (fetchProfile res))).auth.loading = false) := by
  cases s with
  | none =>
      refine ⟨?_, ?_, ?_, ?_⟩ <;> simp [step, hm, sessionUser]
  | some ss =>
      refine ⟨?_, ?_, ?_, ?_⟩ <;> simp [step, hm, sessionUser]

/-- C4 amended witness: a concrete auth event while mounted stores the
event's session. -/
theorem auth_event_handler_contract_witness :
    (step initProvider (Msg.authEvent (some sess1))).auth.session = some sess1 :=
  (auth_event_handler_contract initProvider (some sess1) rfl).1

/-- C5: the bootstrap profile fetch is best-effort: a remote failure
yields `none` from the total `fetchProfile` (nothing is thrown), the
profile stays `null`, the bootstrap still ends with `loading = false`,
and `loading` after a failed fetch equals `loading` after a successful
one — the failure never changes or blocks `loading`. -/
theorem profile_fetch_best_effort (st : ProviderState) (m : String) (p : Profile)
    (hp : st.phase = .fetchingProfile) (hpr : st.auth.profile = none) :
    fetchProfile (.failure m) = none
    ∧ (step st (.profileResult (fetchProfile (.failure m)))).auth.profile = none
    ∧ (step st (.profileResult (fetchProfile (.failure m)))).auth.loading = false
    ∧ (step st (.profileResult (fetchProfile (.failure m)))).auth.loading
        = (step st (.profileResult (fetchProfile (.ok p)))).auth.loading := by
  cases hm : st.mounted <;> simp [step, fetchProfile, hp, hpr, hm]

/-- C5 witness: a failed bootstrap profile fetch at a concrete state
leaves `profile = none`. -/
theorem profile_fetch_best_effort_witness :
    (step (run initProvider [Msg.sessionResult (some sess1) false])
        (Msg.profileResult (fetchProfile (.failure "boom")))).auth.profile = none :=
  (profile_fetch_best_effort (run initProvider [Msg.sessionResult (some sess1) false])
    "boom" prof1 rfl rfl).2.1

/-- Errors returned by the Session Store's credential operations. -/
inductive AuthErr where
  | noConnection
  | remote (msg : String)
deriving Repr, DecidableEq

/-- Outcome of the remote `supabase.auth.signOut()` call: success,
an error result, or a thrown exception. -/
inductive RemoteSignOut where
  | ok
  | err (msg : String)
  | thrown (msg : String)
deriving Repr, DecidableEq

/-- `signOut` from `src/hooks/use-auth.tsx` (the connection-aware
variant): with `connectionError` set it clears `{user, profile, session}`
locally and returns `{error: null}` without consulting the remote;
otherwise it delegates and returns the remote error (a thrown exception
is caught and returned as the error value) — this path performs no local
state change. -/
def signOut (st : AuthState) (remote : RemoteSignOut) : AuthState × Option AuthErr :=
  if st.connectionError then
    ({ st with user := none, profile := none, session := none }, none)
  else
    match remote with
    | .ok => (st, none)
    | .err m => (st, some (.remote m))
    | .thrown m => (st, some (.remote m))

/-- `signOut` of the companion provider variant (appended in
`src/lib/supabase.ts`, no `connectionError` flag): the local
`{user, profile, session}` are cleared on both the success path and the
caught-exception path, regardless of the remote outcome. -/
def signOutAlwaysClear (st : AuthState) (remote : RemoteSignOut) :
    AuthState × Option AuthErr :=
  ({ st with user := none, profile := none, session := none },
   match remote with
   | .ok => none
   | .err m => some (.remote m)
   | .thrown m => some (.remote m))

/-- Concrete auth states for the sign-out theorems. -/
def authStOffline : AuthState :=
  { user := some u1, profile := some prof1, session := some sess1
    loading := false, connectionError := true }

def authStOnline : AuthState :=
  { user := some u1, profile := some prof1, session := some sess1
    loading := false, connectionError := false }

/-- C6 counterexample: with `connectionError = false` the claim demands
local state be cleared regardless of the remote outcome, but the
connection-aware `signOut` leaves `user`, `profile` and `session` intact
on both a successful and a failing remote call. -/
theorem signOut_remote_path_does_not_clear :
    (signOut authStOnline RemoteSignOut.ok).1.user = some u1
    ∧ (signOut authStOnline RemoteSignOut.ok).2 = none
    ∧ (signOut authStOnline (RemoteSignOut.err "server error")).1.session = some sess1 := by
  decide

/-- C6 amended: with `connectionError = true`, `signOut` clears the local
identity state and returns `{error: null}`, independently of (and without
calling) the remote service; with `connectionError = false` it delegates
and returns the remote outcome as the error value (exceptions caught),
leaving local state unchanged.  The companion variant without
`connectionError` clears local state unconditionally. -/
theorem signOut_contract (st : AuthState) (r : RemoteSignOut) (m : String) :
    (st.connectionError = true →
      signOut st r = ({ st with user := none, profile := none, session := none }, none))
    ∧ (st.connectionError = false →
        (signOut st r).1 = st
        ∧ (signOut st .ok).2 = none
        ∧ (signOut st (.err m)).2 = some (.remote m)
        ∧ (signOut st (.thrown m)).2 = some (.remote m))
    ∧ (signOutAlwaysClear st r).1.user = none
    ∧ (signOutAlwaysClear st r).1.profile = none
    ∧ (signOutAlwaysClear st r).1.session = none := by
  cases hce : st.connectionError <;> cases r <;>
    simp [signOut, signOutAlwaysClear, hce]

/-- C6 amended witness: a local-only sign-out at a concrete offline
state. -/
theorem signOut_contract_witness :
    signOut authStOffline RemoteSignOut.ok
      = ({ authStOffline with user := none, profile := none, session := none }, none) :=
  (signOut_contract authStOffline RemoteSignOut.ok "x").1 rfl

/-! The Resource Store for projects, from `src/hooks/use-projects.tsx`.
`social_links` is a string-to-string mapping; it is modelled as an
association list, preserving the entry order of the source object. -/

inductive Plan where
  | personal
  | creator
  | business
deriving Repr, DecidableEq

structure Project where
  id : String
  name : String
  description : String
  plan : Plan
  social_links : Option (List (String × String))
  user_id : String
  created_at : String
  updated_at : String
deriving Repr, DecidableEq

/-- The argument of `createProject`. -/
structure ProjectInput where
  name : String
  description : String
  plan : Plan
  social_links : Option (List (String × String))
deriving Repr, DecidableEq

/-- The record assembled by `createProject` and sent to the insert. -/
structure InsertData where
  name : String
  description : String
  plan : Plan
  social_links : Option (List (String × String))
  user_id : String
deriving Repr, DecidableEq

/-- JavaScript's `String.prototype.trim()`: strip leading and trailing
whitespace.  Defined structurally over the character list so that it
evaluates inside the kernel. -/
def jsTrim (s : String) : String :=
  String.mk (((s.data.dropWhile Char.isWhitespace).reverse.dropWhile
    Char.isWhitespace).reverse)

/-- `cleanSocialLinks`:
`Object.entries(social_links).filter(([_, value]) => value && value.trim() !== '')`
when `social_links` was passed, else `null`. -/
def cleanSocialLinks (links : Option (List (String × String))) :
    Option (List (String × String)) :=
  match links with
  | some l => some (l.filter (fun kv => kv.2 != "" && jsTrim kv.2 != ""))
  | none => none

/-- `insertData`: trimmed `name`/`description`, the cleaned
`social_links` collapsed to `null` when no keys remain
(`Object.keys(cleanSocialLinks || {}).length > 0 ? cleanSocialLinks : null`),
and `user_id` forced to the current user. -/
def mkInsertData (input : ProjectInput) (uid : String) : InsertData :=
  { name := jsTrim input.name
    description := jsTrim input.description
    plan := input.plan
    social_links :=
      match cleanSocialLinks input.social_links with
      | some l => if l.length > 0 then some l else none
      | none => none
    user_id := uid }

/-- Errors surfaced by the projects hook as result values. -/
inductive ProjError where
  | userNotAuthenticated
  | noConnectionToDatabase
  | databaseConnectionFailed
  | remote (msg : String)
  | unexpected (msg : String)
deriving Repr, DecidableEq

/-- Outcome of the preliminary
`from('projects').select('count').eq('user_id', ...).limit(1)` probe. -/
inductive RemoteTest where
  | ok
  | err (msg : String)
  | thrown (msg : String)
deriving Repr, DecidableEq

/-- Columns generated by the database on insert. -/
structure RowMeta where
  id : String
  created_at : String
  updated_at : String
deriving Repr, DecidableEq

/-- Outcome of `from('projects').insert(insertData).select().single()`:
on success the database stores `insertData` and returns it with the
generated columns. -/
inductive RemoteInsert where
  | ok (meta : RowMeta)
  | err (msg : String)
  | thrown (msg : String)
deriving Repr, DecidableEq

/-- The row the database returns for a successful insert. -/
def rowOfInsert (d : InsertData) (m : RowMeta) : Project :=
  { id := m.id, name := d.name, description := d.description, plan := d.plan
    social_links := d.social_links, user_id := d.user_id
    created_at := m.created_at, updated_at := m.updated_at }

/-- Result triple of a mutating projects operation: the `{data, error}`
returned to the caller plus the local list after the call. -/
structure CreateResult where
  data : Option Project
  error : Option ProjError
  projects : List Project
deriving Repr, DecidableEq

/-- `createProject` from `src/hooks/use-projects.tsx`: guards
(no user, `connectionError`), input normalization (`mkInsertData`), the
preliminary test query (an error result returns it, a thrown exception
becomes `Error('Database connection failed')`, and in both cases the
insert is never attempted), then the insert; on success the returned row
is prepended to the local list, on failure the list is untouched. -/
def createProject (user : Option User) (connectionError : Bool)
    (projects : List Project) (input : ProjectInput)
    (test : RemoteTest) (ins : RemoteInsert) : CreateResult :=
  match user with
  | none => { data := none, error := some .userNotAuthenticated, projects := projects }
  | some u =>
    if connectionError then
      { data := none, error := some .noConnectionToDatabase, projects := projects }
    else
      match test with
      | .err m => { data := none, error := some (.remote m), projects := projects }
      | .thrown _ =>
        { data := none, error := some .databaseConnectionFailed, projects := projects }
      | .ok =>
        let d := mkInsertData input u.id
        match ins with
        | .err m => { data := none, error := some (.remote m), projects := projects }
        | .thrown m => { data := none, error := some (.unexpected m), projects := projects }
        | .ok meta =>
          let row := rowOfInsert d meta
          { data := some row, error := none, projects := row :: projects }

/-- `Partial<Project>`: each field optionally present. -/
structure ProjectUpdate where
  id : Option String
  name : Option String
  description : Option String
  plan : Option Plan
  social_links : Option (Option (List (String × String)))
  user_id : Option String
  created_at : Option String
  updated_at : Option String
deriving Repr, DecidableEq

/-- The empty partial update. -/
def emptyUpdate : ProjectUpdate :=
  { id := none, name := none, description := none, plan := none
    social_links := none, user_id := none, created_at := none, updated_at := none }

/-- The row resulting from `UPDATE ... SET <present fields>` on `p`. -/
def applyUpdates (p : Project) (u : ProjectUpdate) : Project :=
  { id := u.id.getD p.id
    name := u.name.getD p.name
    description := u.description.getD p.description
    plan := u.plan.getD p.plan
    social_links := u.social_links.getD p.social_links
    user_id := u.user_id.getD p.user_id
    created_at := u.created_at.getD p.created_at
    updated_at := u.updated_at.getD p.updated_at }

/-- Outcome of the remote update / delete call. -/
inductive RemoteMutation where
  | ok
  | err (msg : String)
  | thrown (msg : String)
deriving Repr, DecidableEq

/-- `updateProject` from `src/hooks/use-projects.tsx`: short-circuits on
`connectionError`; a remote error is thrown and caught, returning
`{data:null, error}` with the list untouched; on success
`.update(updates).eq('id', id).select().single()` returns the stored row
— modelled as the partial fields applied to the managed row with that id
(`.single()` on no matching row errors with `PGRST116`) — and the local
list replaces the record with the returned data. -/
def updateProject (connectionError : Bool) (projects : List Project)
    (id : String) (upd : ProjectUpdate) (remote : RemoteMutation) : CreateResult :=
  if connectionError then
    { data := none, error := some .noConnectionToDatabase, projects := projects }
  else
    match remote with
    | .err m => { data := none, error := some (.remote m), projects := projects }
    | .thrown m => { data := none, error := some (.unexpected m), projects := projects }
    | .ok =>
      match projects.find? (fun p => p.id == id) with
      | none => { data := none, error := some (.remote "PGRST116"), projects := projects }
      | some p =>
        let row := applyUpdates p upd
        { data := some row, error := none
          projects := projects.map (fun q => if q.id == id then row else q) }

/-- Result pair of `deleteProject`. -/
structure DeleteResult where
  error : Option ProjError
  projects : List Project
deriving Repr, DecidableEq

/-- `deleteProject` from `src/hooks/use-projects.tsx`: short-circuits on
`connectionError`; a remote error is thrown, caught and returned with
the list untouched; on success the record is removed from the local
list. -/
def deleteProject (connectionError : Bool) (projects : List Project)
    (id : String) (remote : RemoteMutation) : DeleteResult :=
  if connectionError then
    { error := some .noConnectionToDatabase, projects := projects }
  else
    match remote with
    | .err m => { error := some (.remote m), projects := projects }
    | .thrown m => { error := some (.unexpected m), projects := projects }
    | .ok => { error := none, projects := projects.filter (fun p => !(p.id == id)) }

/-- Outcome of the remote fetch query: `db` is the table contents the
query ran against. -/
inductive RemoteFetch where
  | ok (db : List Project)
  | err (msg : String)
  | thrown (msg : String)
deriving Repr, DecidableEq

/-- `fetchProjects` local outcome: the list and the `loading` flag. -/
structure FetchResult where
  projects : List Project
  loading : Bool
deriving Repr, DecidableEq

/-- `fetchProjects` from `src/hooks/use-projects.tsx`: with no user or a
connection error it clears the list and stops loading; otherwise it runs
`select('*').eq('user_id', user.id).order('created_at', descending)` —
the remote evaluates the `user_id` filter (the `created_at` ordering only
permutes the rows and is left to the remote) — falling back to the empty
list on any error; `loading` is cleared in every path (`finally`). -/
def fetchProjects (user : Option User) (connectionError : Bool)
    (remote : RemoteFetch) : FetchResult :=
  match user with
  | none => { projects := [], loading := false }
  | some u =>
    if connectionError then { projects := [], loading := false }
    else
      match remote with
      | .err _ => { projects := [], loading := false }
      | .thrown _ => { projects := [], loading := false }
      | .ok db => { projects := db.filter (fun p => p.user_id == u.id), loading := false }

/-- The Resource Store invariant of the spec: every managed record
belongs to the given user. -/
def ownedBy (uid : String) (projects : List Project) : Prop :=
  ∀ p ∈ projects, p.user_id = uid

instance (uid : String) (l : List Project) : Decidable (ownedBy uid l) :=
  inferInstanceAs (Decidable (∀ p ∈ l, p.user_id = uid))

/-- The filter predicate of `cleanSocialLinks` keeps exactly the entries
whose value does not trim to the empty string (a value that is `''` is
falsy and also trims to `''`). -/
theorem socialLinkKept_iff (s : String) :
    (s != "" && jsTrim s != "") = true ↔ jsTrim s ≠ "" := by
  simp only [Bool.and_eq_true, bne_iff_ne, ne_eq]
  constructor
  · rintro ⟨_, h⟩
    exact h
  · intro h
    exact ⟨fun hs => h (by rw [hs]; rfl), h⟩

/-- Concrete fixtures for the projects theorems. -/
def proj1 : Project :=
  { id := "p-1", name := "First", description := "d", plan := .personal
    social_links := none, user_id := "user-1"
    created_at := "2024-01-02", updated_at := "2024-01-02" }

def meta1 : RowMeta :=
  { id := "p-new", created_at := "2024-02-01", updated_at := "2024-02-01" }

def input7 : ProjectInput :=
  { name := "  My Project  ", description := " desc ", plan := .creator
    social_links := some [("a", ""), ("b", "x")] }

def input8 : ProjectInput :=
  { name := "n", description := "d", plan := .personal
    social_links := some [("a", " "), ("b", "")] }

/-- C7: a successful `createProject` stores `name` and `description`
trimmed and `user_id` forced to the current user; an entry of
`social_links` survives exactly when its value does not trim to the
empty string; and the stored map is `null` exactly when no entry
survives (no map passed, or every value empty/whitespace). -/
theorem createProject_normalizes_input (u : User) (st : List Project)
    (input : ProjectInput) (meta : RowMeta) :
    (createProject (some u) false st input .ok (.ok meta)).data
      = some (rowOfInsert (mkInsertData input u.id) meta)
    ∧ (rowOfInsert (mkInsertData input u.id) meta).name = jsTrim input.name
    ∧ (rowOfInsert (mkInsertData input u.id) meta).description
        = jsTrim input.description
    ∧ (rowOfInsert (mkInsertData input u.id) meta).user_id = u.id
    ∧ (∀ kv, kv ∈ ((rowOfInsert (mkInsertData input u.id) meta).social_links.getD [])
        ↔ kv ∈ (input.social_links.getD []) ∧ jsTrim kv.2 ≠ "")
    ∧ ((rowOfInsert (mkInsertData input u.id) meta).social_links = none
        ↔ (input.social_links = none
            ∨ ∀ kv ∈ (input.social_links.getD []), jsTrim kv.2 = "")) := by
  refine ⟨rfl, rfl, rfl, rfl, ?_, ?_⟩
  · intro kv
    cases hsl : input.social_links with
    | none => simp [rowOfInsert, mkInsertData, cleanSocialLinks, hsl]
    | some l =>
      simp only [rowOfInsert, mkInsertData, cleanSocialLinks, hsl, Option.getD_some]
      by_cases hlen :
          0 < (l.filter (fun kv => kv.2 != "" && jsTrim kv.2 != "")).length
      · rw [if_pos hlen]
        simp only [Option.getD_some, List.mem_filter, socialLinkKept_iff, ne_eq]
      · rw [if_neg hlen]
        have hnil : l.filter (fun kv => kv.2 != "" && jsTrim kv.2 != "") = [] :=
          List.length_eq_zero.mp (Nat.le_zero.mp (Nat.not_lt.mp hlen))
        rw [List.filter_eq_nil_iff] at hnil
        simp only [Option.getD_none, List.not_mem_nil, false_iff]
        rintro ⟨hm, ht⟩
        exact (hnil kv hm) ((socialLinkKept_iff kv.2).mpr ht)
  · cases hsl : input.social_links with
    | none => simp [rowOfInsert, mkInsertData, cleanSocialLinks, hsl]
    | some l =>
      simp only [rowOfInsert, mkInsertData, cleanSocialLinks, hsl, Option.getD_some]
      by_cases hlen :
          0 < (l.filter (fun kv => kv.2 != "" && jsTrim kv.2 != "")).length
      · rw [if_pos hlen]
        constructor
        · intro h
          exact absurd h (by simp)
        · rintro (h | hall)
          · exact absurd h (by simp)
          · have hnil : l.filter (fun kv => kv.2 != "" && jsTrim kv.2 != "") = [] :=
              List.filter_eq_nil_iff.mpr
                (fun a ha hp => ((socialLinkKept_iff a.2).mp hp) (hall a ha))
            rw [hnil] at hlen
            simp at hlen
      · rw [if_neg hlen]
        have hnil := List.filter_eq_nil_iff.mp
          (List.length_eq_zero.mp (Nat.le_zero.mp (Nat.not_lt.mp hlen)))
        simp only [true_iff, eq_self_iff_true]
        right
        intro kv hm
        by_contra hne
        exact (hnil kv hm) ((socialLinkKept_iff kv.2).mpr hne)

/-- C7 witness: an all-empty `social_links` map at a concrete input is
collapsed to `null`. -/
theorem createProject_normalizes_input_witness :
    (rowOfInsert (mkInsertData input8 u1.id) meta1).social_links = none :=
  (createProject_normalizes_input u1 [] input8 meta1).2.2.2.2.2.mpr
    (Or.inr (by decide))

/-- C8: with `connectionError = true`, `create`, `update` and `delete`
each return an error result value without consulting the remote service
(the result is independent of every remote outcome) and leave the local
list untouched; totality is the no-throw guarantee. -/
theorem connection_error_blocks_mutations (user : Option User)
    (st : List Project) (input : ProjectInput) (test test' : RemoteTest)
    (ins ins' : RemoteInsert) (id : String) (upd : ProjectUpdate)
    (mu mu' md md' : RemoteMutation) :
    (createProject user true st input test ins).data = none
    ∧ (createProject user true st input test ins).error.isSome = true
    ∧ (createProject user true st input test ins).projects = st
    ∧ createProject user true st input test ins
        = createProject user true st input test' ins'
    ∧ updateProject true st id upd mu
        = { data := none, error := some .noConnectionToDatabase, projects := st }
    ∧ updateProject true st id upd mu = updateProject true st id upd mu'
    ∧ deleteProject true st id md
        = { error := some .noConnectionToDatabase, projects := st }
    ∧ deleteProject true st id md = deleteProject true st id md' := by
  cases user <;> simp [createProject, updateProject, deleteProject]

/-- C9 counterexample: `updateProject` accepts an arbitrary
`Partial<Project>` and stores the row the remote returns, so an update
whose partial fields carry a foreign `user_id` leaves the local list
holding a record not owned by the session user. -/
theorem update_can_break_ownership :
    ownedBy "user-1" [proj1]
    ∧ ¬ ownedBy "user-1"
        (updateProject false [proj1] "p-1"
          { emptyUpdate with user_id := some "intruder" }
          RemoteMutation.ok).projects := by
  decide

/-- C9 amended: every record managed by the Resource Store belongs to the
session user: `fetchProjects` filters on `user_id`, `createProject`
forces it, `deleteProject` only removes records, and `updateProject`
preserves the invariant whenever its partial fields do not carry a
different `user_id` (absent, or equal to the session user's id). -/
theorem ownership_invariant (u : User) (st : List Project) (ce : Bool)
    (remote : RemoteFetch) (input : ProjectInput) (test : RemoteTest)
    (ins : RemoteInsert) (id : String) (upd : ProjectUpdate)
    (mu : RemoteMutation) (hown : ownedBy u.id st)
    (hupd : upd.user_id = none ∨ upd.user_id = some u.id) :
    ownedBy u.id (fetchProjects (some u) ce remote).projects
    ∧ ownedBy u.id (createProject (some u) ce st input test ins).projects
    ∧ ownedBy u.id (updateProject ce st id upd mu).projects
    ∧ ownedBy u.id (deleteProject ce st id mu).projects := by
  have happly : ∀ p ∈ st, (applyUpdates p upd).user_id = u.id := by
    intro p hp
    rcases hupd with h | h <;> simp [applyUpdates, h, hown p hp]
  refine ⟨?_, ?_, ?_, ?_⟩
  · cases ce with
    | true => intro p hp; exact absurd hp (List.not_mem_nil p)
    | false =>
      cases remote with
      | ok db =>
        intro p hp
        exact eq_of_beq (List.mem_filter.mp hp).2
      | err m => intro p hp; exact absurd hp (List.not_mem_nil p)
      | thrown m => intro p hp; exact absurd hp (List.not_mem_nil p)
  · cases ce with
    | true => exact hown
    | false =>
      cases test with
      | err m => exact hown
      | thrown m => exact hown
      | ok =>
        cases ins with
        | err m => exact hown
        | thrown m => exact hown
        | ok meta =>
          intro p hp
          rcases List.mem_cons.mp hp with h | h
          · rw [h]; rfl
          · exact hown p h
  · cases ce with
    | true => exact hown
    | false =>
      cases mu with
      | err m => exact hown
      | thrown m => exact hown
      | ok =>
        cases hfind : st.find? (fun p => p.id == id) with
        | none =>
          simp only [updateProject, hfind, Bool.false_eq_true, if_false]
          exact hown
        | some q =>
          simp only [updateProject, hfind, Bool.false_eq_true, if_false]
          intro p hp
          rcases List.mem_map.mp hp with ⟨r, hr, hrp⟩
          rw [← hrp]
          by_cases hid : (r.id == id) = true
          · rw [if_pos hid]
            exact happly q (List.mem_of_find?_eq_some hfind)
          · rw [if_neg hid]
            exact hown r hr
  · cases ce with
    | true => exact hown
    | false =>
      cases mu with
      | err m => exact hown
      | thrown m => exact hown
      | ok =>
        intro p hp
        exact hown p (List.mem_of_mem_filter hp)

/-- C9 amended witness: an update whose partial fields omit `user_id`
keeps the concrete one-record list owned by the session user. -/
theorem ownership_invariant_witness :
    ownedBy u1.id (updateProject false [proj1] "p-1" emptyUpdate
      RemoteMutation.ok).projects :=
  (ownership_invariant u1 [proj1] false (RemoteFetch.ok []) input7 .ok
    (.ok meta1) "p-1" emptyUpdate RemoteMutation.ok (by decide)
    (Or.inl rfl)).2.2.1

/-- C10: a failing preliminary test query — error result or thrown
exception — makes `createProject` return `{data: null, error}` with the
local list untouched and without attempting the insert: the result does
not depend on the insert outcome at all. -/
theorem create_test_query_gate (u : User) (st : List Project)
    (input : ProjectInput) (m : String) (ins ins' : RemoteInsert) :
    (createProject (some u) false st input (.err m) ins).data = none
    ∧ (createProject (some u) false st input (.err m) ins).error = some (.remote m)
    ∧ (createProject (some u) false st input (.err m) ins).projects = st
    ∧ createProject (some u) false st input (.err m) ins
        = createProject (some u) false st input (.err m) ins'
    ∧ (createProject (some u) false st input (.thrown m) ins).data = none
    ∧ (createProject (some u) false st input (.thrown m) ins).error
        = some .databaseConnectionFailed
    ∧ (createProject (some u) false st input (.thrown m) ins).projects = st
    ∧ createProject (some u) false st input (.thrown m) ins
        = createProject (some u) false st input (.thrown m) ins' := by
  simp [createProject]

end Piss2
